import Mathlib

/-!
Verification development for the copperx-telegram-bot repository.

The TypeScript sources are shallowly embedded: pure logic becomes Lean
functions, mutable module state (the token store, the session object, the
pusher-instance map) becomes explicit state records threaded through the
functions, and network calls become explicit outcome parameters
(`Except`/`ApiResult` values describing what the remote endpoint did).
JavaScript truthiness on the values that the code actually branches on
(numbers where `0` is falsy, strings where `""` is falsy, `undefined`)
is modelled by small `js*` helpers.  Times are integer milliseconds.
-/

/-- JavaScript truthiness of an optional number: `undefined` and `0` are falsy. -/
def jsTruthyNum : Option Int → Bool
  | none => false
  | some v => v != 0

/-- JavaScript `v || d` for numbers: yields `d` when `v` is `0`. -/
def jsOrInt (v d : Int) : Int :=
  if v = 0 then d else v

/-- JavaScript truthiness of an optional string: `undefined` and `""` are falsy. -/
def jsTruthyStr : Option String → Bool
  | none => false
  | some s => s != ""

/-- JavaScript `a || d` for an optional string (empty string is falsy). -/
def jsStrOr (a : Option String) (d : String) : String :=
  match a with
  | none => d
  | some s => if s = "" then d else s

/-- Whether `needle` occurs at the head of `hay`. -/
def subAt : List Char → List Char → Bool
  | [], _ => true
  | _ :: _, [] => false
  | a :: as, b :: bs => a == b && subAt as bs

/-- Whether `needle` occurs anywhere in `hay`. -/
def hasSub (needle : List Char) : List Char → Bool
  | [] => subAt needle []
  | b :: bs => subAt needle (b :: bs) || hasSub needle bs

/-- JavaScript `hay.includes(pat)` for strings. -/
def jsIncludes (hay pat : String) : Bool :=
  hasSub pat.data hay.data

/-- Split a character list at every occurrence of `c` (like `String.split`). -/
def splitOnChar (c : Char) : List Char → List (List Char)
  | [] => [[]]
  | a :: as =>
    let r := splitOnChar c as
    if a == c then [] :: r
    else
      match r with
      | [] => [[a]]
      | h :: t => (a :: h) :: t

/-- Character class `[^\s@]` of the email regex used by the handlers. -/
def okEmailChar (c : Char) : Bool :=
  !(c == '@') && !c.isWhitespace

/--
Embedding of the email-format test `/^[^\s@]+@[^\s@]+\.[^\s@]+$/.test(s)`
used by `auth.handler.ts` and `transfer.handler.ts`.  The anchored regex
matches exactly the strings of the form `L@D` where `L` is a nonempty run
of non-whitespace non-`@` characters and `D` is such a run containing a
dot that has at least one character on each side within `D` (the runs
around the dot may themselves contain further dots, so this is precisely
"some dot at an interior position of `D`").
-/
def emailRegexTest (s : String) : Bool :=
  match splitOnChar '@' s.data with
  | [loc, dom] =>
    !loc.isEmpty && loc.all okEmailChar &&
    !dom.isEmpty && dom.all okEmailChar &&
    ((dom.drop 1).dropLast).contains '.'
  | _ => false

/-!
## Token store and axios instance state (`src/utils/api.ts`)

`authToken` and `tokenExpiry` are the module-level mutable variables;
`authHeader` is `api.defaults.headers.common["Authorization"]`.
-/

/-- Process-wide mutable state of `src/utils/api.ts`. -/
structure ApiState where
  authToken : Option String
  tokenExpiry : Option Int
  authHeader : Option String
  deriving DecidableEq

/-- Initial module state: no token, no expiry, no default header. -/
def initApiState : ApiState := ⟨none, none, none⟩

/--
Embedding of `setAuthToken(token, expiresIn?)`: stores the token, sets the
default `Authorization` header, and computes the expiry timestamp.  The
source guards the ttl with JavaScript truthiness (`if (expiresIn)`), so
`expiresIn = 0` falls back to the 24-hour default exactly like `undefined`.
The `setTimeout` refresh stub in the source only logs and is not modelled.
-/
def setAuthToken (s : ApiState) (token : String) (expiresIn : Option Int)
    (now : Int) : ApiState :=
  { s with
    authToken := some token
    authHeader := some ("Bearer " ++ token)
    tokenExpiry :=
      if jsTruthyNum expiresIn then
        some (now + expiresIn.getD 0 * 1000)
      else
        some (now + 24 * 60 * 60 * 1000) }

/-- Embedding of `clearAuthToken()`: removes token, expiry and default header. -/
def clearAuthToken (s : ApiState) : ApiState :=
  let _ := s
  ⟨none, none, none⟩

/--
Embedding of `isTokenExpired()`: the source guard `if (!tokenExpiry)
return false` uses JS falsiness, so both a missing expiry and a stored
expiry of `0` read as not expired; otherwise the result is whether `now`
is past the expiry minus the 5-minute buffer.
-/
def isTokenExpired (s : ApiState) (now : Int) : Bool :=
  if !jsTruthyNum s.tokenExpiry then false
  else now > s.tokenExpiry.getD 0 - 5 * 60 * 1000

/-!
## Token refresh (`auth.service.ts`, `refreshToken`)
-/

/-- Token record returned by a successful `refreshToken()`. -/
structure TokenInfo where
  token : String
  expiresIn : Int
  deriving DecidableEq

/-- Shape of the refresh endpoint response body used by `refreshToken()`. -/
structure RefreshResponse where
  /-- whether `response.data` is truthy -/
  dataTruthy : Bool
  /-- `response.data.accessToken` (absent or empty means falsy) -/
  accessToken : Option String
  /-- `response.data.expireAt` as a millisecond timestamp, when present -/
  expireAt : Option Int
  deriving DecidableEq

/--
Embedding of `refreshToken()` from `auth.service.ts`.  The argument is the
outcome of `api.post("/auth/refresh-token")` (`Except.error` = the call
rejected).  The entire body is wrapped in `try/catch { return null }`, so
the function is total: every outcome yields either a `TokenInfo` or `none`,
never an exception.
-/
def refreshToken (call : Except Unit RefreshResponse) (now : Int) :
    Option TokenInfo :=
  match call with
  | Except.error _ => none
  | Except.ok r =>
    if r.dataTruthy && jsTruthyStr r.accessToken then
      some
        { token := r.accessToken.getD ""
          expiresIn :=
            match r.expireAt with
            | some t => Int.fdiv (t - now) 1000
            | none => 24 * 60 * 60 }
    else
      none

/-!
## Request interceptor (`api.interceptors.request.use`)

The interceptor runs after axios has already merged the default headers
into the request config, so the config enters carrying `s.authHeader`.
The `refresh` argument is the outcome of `await refreshToken()` as seen
by the interceptor: `Except.error` models the (unreachable) case that the
call rejects and the `catch` block runs.
-/

/-- Result of the request interceptor: new module state, the
`Authorization` header the outgoing request carries, and how many refresh
attempts were made. -/
structure ReqOut where
  state : ApiState
  header : Option String
  refreshAttempts : Nat
  deriving DecidableEq

/-- Embedding of the request interceptor in `src/utils/api.ts`. -/
def requestInterceptor (s : ApiState) (now : Int)
    (refresh : Except Unit (Option TokenInfo)) : ReqOut :=
  match s.authToken with
  | none => { state := s, header := s.authHeader, refreshAttempts := 0 }
  | some tok =>
    if isTokenExpired s now then
      match refresh with
      | Except.error _ =>
        -- catch branch: clearAuthToken() and return the config unchanged;
        -- the config already captured the previously merged default header
        { state := clearAuthToken s, header := s.authHeader
          refreshAttempts := 1 }
      | Except.ok none =>
        -- refresh returned null: nothing is updated, fall through to
        -- `config.headers.Authorization = Bearer <authToken>` (old token)
        { state := s, header := some ("Bearer " ++ tok), refreshAttempts := 1 }
      | Except.ok (some nt) =>
        -- refresh succeeded: update module variables (the default header
        -- record is not touched) and attach the new token
        { state :=
            { s with
              authToken := some nt.token
              tokenExpiry := some (now + jsOrInt nt.expiresIn (24 * 60 * 60) * 1000) }
          header := some ("Bearer " ++ nt.token)
          refreshAttempts := 1 }
    else
      { state := s, header := some ("Bearer " ++ tok), refreshAttempts := 0 }

/-!
## Response interceptor (`api.interceptors.response.use`, error handler)
-/

/-- What the response error handler does with the failed call. -/
inductive RespAction where
  /-- re-send the original request once, with this `Authorization` header -/
  | resend (auth : String)
  /-- propagate the original error to the caller -/
  | reject
  deriving DecidableEq

/-- Result of the response error handler: new module state, the action
taken, the `_retry` flag on the original request afterwards, and the
number of refresh attempts made. -/
structure RespOut where
  state : ApiState
  action : RespAction
  retryFlag : Bool
  refreshAttempts : Nat
  deriving DecidableEq

/--
Embedding of the response error interceptor in `src/utils/api.ts`.
`status` is `error.response.status` (`none` when there was no response),
`retried` is `originalRequest._retry`, and `refresh` is the outcome of
`await refreshToken()` (`Except.error` models a rejected call, which runs
the `catch` block that clears the token).
-/
def responseErrorHandler (s : ApiState) (now : Int) (status : Option Int)
    (retried : Bool) (refresh : Except Unit (Option TokenInfo)) : RespOut :=
  if status == some 401 && !retried then
    match refresh with
    | Except.error _ =>
      { state := clearAuthToken s, action := RespAction.reject
        retryFlag := true, refreshAttempts := 1 }
    | Except.ok none =>
      -- refresh returned null: fall through to Promise.reject(error)
      -- WITHOUT clearing the token
      { state := s, action := RespAction.reject
        retryFlag := true, refreshAttempts := 1 }
    | Except.ok (some nt) =>
      { state :=
          { s with
            authToken := some nt.token
            tokenExpiry := some (now + jsOrInt nt.expiresIn (24 * 60 * 60) * 1000) }
        action := RespAction.resend ("Bearer " ++ nt.token)
        retryFlag := true, refreshAttempts := 1 }
  else
    { state := s, action := RespAction.reject
      retryFlag := retried, refreshAttempts := 0 }

/-!
## Session data model (`src/types/index.ts`)

Only the fields the verified handlers read or write are embedded.
`Option` on a whole record models the field being `undefined`; a record
with all fields `none` models the empty object literal `{}`.
-/

/-- Embedding of `AuthState` from `types/index.ts`. -/
structure AuthFlowState where
  email : Option String
  awaitingOTP : Bool
  sid : Option String
  deriving DecidableEq

/-- Embedding of `session.transferState` from `types/index.ts`. -/
structure TransferFlowState where
  type : Option String
  recipient : Option String
  amount : Option String
  network : Option String
  deriving DecidableEq

/-- The empty object `{}` that the handlers assign to reset the flow. -/
def emptyTransferState : TransferFlowState := ⟨none, none, none, none⟩

/-- Whether a transfer flow state carries no data at all. -/
def TransferFlowState.isEmpty (t : TransferFlowState) : Bool :=
  t.type == none && t.recipient == none && t.amount == none && t.network == none

/-- Embedding of `session.historyState`. -/
structure HistoryState where
  page : Nat
  limit : Nat
  deriving DecidableEq

/-- Embedding of the per-chat session record.  `user` is abbreviated to
the bearer token, the only part the verified handlers depend on. -/
structure Session where
  user : Option String
  authState : Option AuthFlowState
  transferState : Option TransferFlowState
  historyState : Option HistoryState
  deriving DecidableEq

/-!
## User-facing replies

The handlers reply with fixed message texts (and keyboards); the texts
themselves are presentation strings, so each distinct reply is embedded
as one constructor.
-/

/-- The distinct user-facing replies of the embedded handlers. -/
inductive Reply where
  | loginRequired
  | kycNotApproved
  | noDefaultWallet
  | insufficientBalance
  | eligibilityCheckFailed
  | promptRecipientEmail
  | invalidEmailFormat
  | otpSent
  | otpRequestFailed
  | promptLoginEmail
  | invalidSessionState
  | missingRecipientOrAmount
  | missingNetwork
  | transferSuccess
  | transferFailedEligibility (msg : String)
  | transferFailedGeneric
  | transferCancelled
  deriving DecidableEq

/-!
## Send flow entry point (`transfer.handler.ts`, `sendHandler`, lines 295-366)

The inlined precondition gate of `sendHandler` is embedded: `checkAuth`
(is a user record present), the KYC check (`isKycApproved()` returns a
boolean and never rejects), the default-wallet check and the balance
check.  The two wallet-service calls never reject either (their bodies
catch and return empty data), so the gate inputs are plain values:
`defaultWallet` is `walletResponse.data?.walletAddress`
(outer `none` = falsy `data`), and `balance` is
`balanceResponse.data?.balance` with the string already put through
`parseFloat` (outer `none` = falsy `data`, inner `none` = falsy balance
string, `some v` = the parsed numeric value).
-/

/-- The default-wallet gate: `!walletResponse.data || !data.walletAddress`. -/
def defaultWalletOk (dw : Option (Option String)) : Bool :=
  match dw with
  | none => false
  | some addr => jsTruthyStr addr

/-- The balance gate:
`!data || !data.balance || parseFloat(data.balance) <= 0`. -/
def balanceOk (bal : Option (Option Int)) : Bool :=
  match bal with
  | none => false
  | some none => false
  | some (some v) => v > 0

/-- The transfer state `sendHandler` creates once all preconditions pass:
`{ type: "EMAIL", recipient: undefined, amount: undefined }`. -/
def initialEmailTransferState : TransferFlowState :=
  ⟨some "EMAIL", none, none, none⟩

/-- Embedding of `sendHandler` (the variant at `transfer.handler.ts:295`):
checks login, KYC, default wallet and balance in that order, replying and
returning without touching the session on the first failure; only when
all pass does it create the transfer flow state and prompt for the
recipient email. -/
def sendHandler (sess : Session) (kycApproved : Bool)
    (defaultWallet : Option (Option String)) (balance : Option (Option Int)) :
    Session × Reply :=
  match sess.user with
  | none => (sess, Reply.loginRequired)
  | some _ =>
    if !kycApproved then
      (sess, Reply.kycNotApproved)
    else if !defaultWalletOk defaultWallet then
      (sess, Reply.noDefaultWallet)
    else if !balanceOk balance then
      (sess, Reply.insufficientBalance)
    else
      ({ sess with transferState := some initialEmailTransferState },
       Reply.promptRecipientEmail)

/-!
## Transfer confirmation (`transfer.handler.ts`, `handleTransferConfirm`,
lines 508-587, and `handleTransferCancel`, lines 592-599)
-/

/-- Outcome of the one `sendToEmail`/`sendToWallet` call: resolved, or
rejected with an error whose `message` is given. -/
inductive SendResult where
  | ok
  | errWith (msg : String)
  deriving DecidableEq

/-- Result of `handleTransferConfirm`: the session afterwards, the reply
shown, and the number of transfer calls issued. -/
structure ConfirmOut where
  session : Session
  reply : Reply
  sendCalls : Nat
  deriving DecidableEq

/-- Classification of a send failure in `handleTransferConfirm`: messages
containing "not eligible" or "Failed to verify recipient" get the
specific recipient-ineligibility reply, all others the generic one. -/
def classifySendError (msg : String) : Reply :=
  if jsIncludes msg "not eligible" || jsIncludes msg "Failed to verify recipient" then
    Reply.transferFailedEligibility msg
  else
    Reply.transferFailedGeneric

/-- Embedding of `handleTransferConfirm`.  The `send` argument is the
outcome of the (at most one) `sendToEmail`/`sendToWallet` call.  The
required-field guards use JavaScript truthiness (`!recipient || !amount`,
`!network`), so empty strings fail them like `undefined`. -/
def handleTransferConfirm (sess : Session) (send : SendResult) : ConfirmOut :=
  match sess.user with
  | none => { session := sess, reply := Reply.loginRequired, sendCalls := 0 }
  | some _ =>
    match sess.transferState with
    | none =>
      { session := sess, reply := Reply.invalidSessionState, sendCalls := 0 }
    | some t =>
      if !jsTruthyStr t.recipient || !jsTruthyStr t.amount then
        { session := sess, reply := Reply.missingRecipientOrAmount
          sendCalls := 0 }
      else if t.type == some "EMAIL" then
        match send with
        | SendResult.ok =>
          { session := { sess with transferState := some emptyTransferState }
            reply := Reply.transferSuccess, sendCalls := 1 }
        | SendResult.errWith m =>
          { session := { sess with transferState := some emptyTransferState }
            reply := classifySendError m, sendCalls := 1 }
      else if t.type == some "WALLET" then
        if !jsTruthyStr t.network then
          { session := sess, reply := Reply.missingNetwork, sendCalls := 0 }
        else
          match send with
          | SendResult.ok =>
            { session := { sess with transferState := some emptyTransferState }
              reply := Reply.transferSuccess, sendCalls := 1 }
          | SendResult.errWith m =>
            { session := { sess with transferState := some emptyTransferState }
              reply := classifySendError m, sendCalls := 1 }
      else
        -- neither branch taken: no transfer call is made, yet the
        -- success edit and the reset still run
        { session := { sess with transferState := some emptyTransferState }
          reply := Reply.transferSuccess, sendCalls := 0 }

/-- Embedding of `handleTransferCancel`: resets the flow state to `{}`. -/
def handleTransferCancel (sess : Session) : Session × Reply :=
  ({ sess with transferState := some emptyTransferState },
   Reply.transferCancelled)

/-!
## History pagination (`transfer.handler.ts`, `handleHistoryPagination`,
lines 265-290, and the button rendering in `fetchAndDisplayHistory`)
-/

/-- The page update of `handleHistoryPagination`: `prev` decrements only
when the page is above 1, `next` increments unconditionally, anything
else (in particular `refresh`) keeps the page. -/
def pageUpdate (page : Nat) (action : String) : Nat :=
  if action == "prev" && page > 1 then page - 1
  else if action == "next" then page + 1
  else page

/-- Embedding of `handleHistoryPagination`: after `checkAuth`, initialize
the history state to page 1 / limit 5 when absent, apply the page update,
and re-fetch (the fetch itself only reads the page). -/
def handleHistoryPagination (sess : Session) (action : String) : Session :=
  match sess.user with
  | none => sess
  | some _ =>
    let hs := sess.historyState.getD ⟨1, 5⟩
    { sess with historyState := some { hs with page := pageUpdate hs.page action } }

/-- Whether `fetchAndDisplayHistory` renders the `Next` button: only when
the server reported a pagination object and `page < totalPages`. -/
def nextButtonShown (page : Nat) (totalPages : Option Nat) : Bool :=
  match totalPages with
  | none => false
  | some tp => page < tp

/-!
## Login email step (`auth.handler.ts`, `handleEmailInput`, lines 124-166,
with the dispatch guard of `bot.on(message("text"))` in the entry file)
-/

/-- Dispatch guard for the login-email branch of the free-text router:
the message replies to some prompt, `session.authState.awaitingOTP` is
strictly `false` (so an auth state exists), and the prompt text contains
the login-email wording. -/
def routesToLoginEmail (sess : Session) (replyText : String) : Bool :=
  !(replyText == "") &&
  (match sess.authState with
   | some a => a.awaitingOTP == false
   | none => false) &&
  jsIncludes replyText "enter your email address"

/-- Outcome of `requestEmailOTP`: the response body with its `sid` field,
or a rejection. -/
inductive OtpRequestOutcome where
  | ok (sid : Option String)
  | err
  deriving DecidableEq

/-- Embedding of `handleEmailInput` from `auth.handler.ts`: initialize the
auth state if missing, reject invalid email formats with a re-prompt and
no further change, otherwise request an OTP and, on success, store the
email, set `awaitingOTP` and store the returned `sid`. -/
def handleEmailInput (sess : Session) (email : String)
    (otp : OtpRequestOutcome) : Session × Reply :=
  let sess0 := { sess with authState := some (sess.authState.getD ⟨none, false, none⟩) }
  if !emailRegexTest email then
    (sess0, Reply.invalidEmailFormat)
  else
    match otp with
    | OtpRequestOutcome.ok sid =>
      ({ sess0 with authState := some ⟨some email, true, sid⟩ }, Reply.otpSent)
    | OtpRequestOutcome.err =>
      (sess0, Reply.otpRequestFailed)

/-!
## Notification bridge (`notification.handler.ts`)

`activePusherInstances` is a map from `"<chatId>:<organizationId>"` keys
to Pusher clients; each stored client owns exactly one channel
subscription, opened when the instance was created.  The map is embedded
as its membership predicate.
-/

/-- The `instanceKey` used by `initializeUserPusher`. -/
def instanceKey (chatId : Int) (orgId : String) : String :=
  toString chatId ++ ":" ++ orgId

/-- State of the notification bridge: which instance keys hold an active
Pusher client (and hence one channel subscription). -/
structure BridgeState where
  active : String → Bool

/-- Embedding of `initializeUserPusher` restricted to its state effect:
a no-op when an instance for the key already exists, otherwise create the
client, subscribe once, and store it.  The second component counts the
provider subscriptions opened by this call. -/
def initializeUserPusher (b : BridgeState) (chatId : Int) (orgId : String) :
    BridgeState × Nat :=
  let k := instanceKey chatId orgId
  if b.active k then
    (b, 0)
  else
    (⟨fun k2 => if k2 == k then true else b.active k2⟩, 1)

/-- Number of active provider subscriptions the bridge holds for a key:
one per stored instance. -/
def subCount (b : BridgeState) (chatId : Int) (orgId : String) : Nat :=
  if b.active (instanceKey chatId orgId) then 1 else 0

/-- Embedding of `cleanupUserPusher`: disconnect and remove the stored
instance for the key, if any. -/
def cleanupUserPusher (b : BridgeState) (chatId : Int) (orgId : String) :
    BridgeState :=
  ⟨fun k2 => if k2 == instanceKey chatId orgId then false else b.active k2⟩

/-!
## Recipient eligibility (`transfer.service.ts`, `checkRecipientEligibility`)
-/

/-- An HTTP error response as the service inspects it: status code and the
`data.message` field. -/
structure ErrResp where
  status : Int
  message : Option String
  deriving DecidableEq

/-- A rejected axios call: optional response (absent on network errors)
and the `error.message` string. -/
structure ApiFailure where
  response : Option ErrResp
  message : Option String
  deriving DecidableEq

/-- Outcome of an axios call whose `response.data` has type `α`. -/
inductive ApiResult (α : Type) where
  | success (v : α)
  | failure (e : ApiFailure)
  deriving DecidableEq

/-- Result record of the eligibility check. -/
structure EligResult where
  isEligible : Bool
  reason : Option String
  deriving DecidableEq

/-- The `/users/by-email` fallback payload fields the service reads. -/
structure RecipientInfo where
  hasWallets : Bool
  kycStatus : String
  deriving DecidableEq

/-- The error text used by the outer catch:
`error.response?.data?.message || error.message || "Unknown error"`. -/
def errText (e : ApiFailure) : String :=
  jsStrOr (e.response.bind (fun r => r.message)) (jsStrOr e.message "Unknown error")

/-- Embedding of `checkRecipientEligibility`.  `primary` is the outcome of
`POST /transfers/check-recipient` and `lookup` the outcome of
`GET /users/by-email/<email>` (consulted only on a primary 404).  A
primary failure that is not a 404 response is re-thrown and lands in the
outer catch, which returns NOT eligible with a
"Failed to verify recipient" reason. -/
def checkRecipientEligibility (primary : ApiResult EligResult)
    (lookup : ApiResult RecipientInfo) : EligResult :=
  match primary with
  | ApiResult.success r => r
  | ApiResult.failure e =>
    match e.response with
    | some resp =>
      if resp.status != 404 then
        ⟨false, some ("Failed to verify recipient: " ++ errText e)⟩
      else
        match lookup with
        | ApiResult.success u =>
          if !u.hasWallets then
            ⟨false, some "Recipient does not have any wallets set up"⟩
          else if u.kycStatus != "APPROVED" then
            ⟨false, some "Recipient has not completed KYC verification"⟩
          else
            ⟨true, none⟩
        | ApiResult.failure ue =>
          match ue.response with
          | some uresp =>
            if uresp.status == 404 || uresp.status == 400 then
              if uresp.status == 404 &&
                  (match uresp.message with
                   | some m => jsIncludes m "Cannot GET"
                   | none => false) then
                ⟨true, none⟩
              else
                ⟨false, some "Recipient is not registered with Copperx"⟩
            else
              ⟨true, none⟩
          | none => ⟨true, none⟩
    | none =>
      -- no response object: `!apiError.response` re-throws to the outer catch
      ⟨false, some ("Failed to verify recipient: " ++ errText e)⟩

/-!
# Claims
-/

/--
C8, counterexample.  The claim states that for EVERY call the stored
expiry equals `now + ttlSeconds`, with the 24-hour default only when the
ttl is unspecified.  At `ttlSeconds = 0` the source guard `if (expiresIn)`
is falsy, so the stored expiry is `now + 24h`, not `now + 0`.
-/
theorem c8_counterexample :
    (setAuthToken initApiState "tok" (some 0) 0).tokenExpiry = some 86400000 ∧
    ¬ (setAuthToken initApiState "tok" (some 0) 0).tokenExpiry =
        some (0 + 0 * 1000) := by
  constructor
  · decide
  · decide

/--
C8, amended.  `setAuthToken` stores expiry `now + ttl * 1000` for every
provided NONZERO ttl, and `now + 24h` when the ttl is unspecified or `0`;
whenever a NONZERO expiry is stored, `isTokenExpired` is true exactly
when `now` is past the expiry minus the 5-minute buffer, while a stored
expiry of `0` is falsy to the source guard `if (!tokenExpiry)` and always
reads not expired.
-/
theorem c8_expiry_policy (s : ApiState) (token : String) (ttl now : Int) :
    (setAuthToken s token none now).tokenExpiry = some (now + 86400000) ∧
    (ttl ≠ 0 →
      (setAuthToken s token (some ttl) now).tokenExpiry = some (now + ttl * 1000)) ∧
    (setAuthToken s token (some 0) now).tokenExpiry = some (now + 86400000) ∧
    (setAuthToken s token (some ttl) now).authToken = some token ∧
    (∀ e, s.tokenExpiry = some e → e ≠ 0 →
      (isTokenExpired s now = true ↔ now > e - 300000)) ∧
    (s.tokenExpiry = some 0 → isTokenExpired s now = false) := by
  refine ⟨by norm_num [setAuthToken, jsTruthyNum], ?_, by norm_num [setAuthToken, jsTruthyNum], by simp [setAuthToken], ?_, ?_⟩
  · intro h
    simp [setAuthToken, jsTruthyNum, h]
  · intro e he hne
    simp [isTokenExpired, jsTruthyNum, he, hne]
  · intro he
    simp [isTokenExpired, jsTruthyNum, he]

/-- C8, witness for `c8_expiry_policy` at a concrete state and ttl. -/
theorem c8_witness :
    (setAuthToken ⟨none, some 1000000, none⟩ "t" (some 2) 800000).tokenExpiry =
      some (800000 + 2 * 1000) ∧
    isTokenExpired ⟨none, some 1000000, none⟩ 800000 = true := by
  have h := c8_expiry_policy ⟨none, some 1000000, none⟩ "t" 2 800000
  exact ⟨h.2.1 (by decide), (h.2.2.2.2.1 1000000 rfl (by decide)).mpr (by decide)⟩

/--
C10.  `refreshToken` is total: a rejected endpoint call yields `none`
(not an exception), and therefore the interceptors, fed the actual
outcome `Except.ok (refreshToken call now)`, never execute their catch
branches: the stored token is never cleared by either interceptor.
-/
theorem c10_refresh_total_no_throw (call : Except Unit RefreshResponse)
    (now : Int) (s : ApiState) (st : Option Int) (retried : Bool) (tok : String)
    (h : s.authToken = some tok) :
    refreshToken (Except.error ()) now = none ∧
    (requestInterceptor s now
        (Except.ok (refreshToken call now))).state.authToken.isSome = true ∧
    (responseErrorHandler s now st retried
        (Except.ok (refreshToken call now))).state.authToken.isSome = true := by
  refine ⟨rfl, ?_, ?_⟩
  · cases hr : refreshToken call now with
    | none =>
      simp only [requestInterceptor, h, hr]
      split <;> simp [h]
    | some nt =>
      simp only [requestInterceptor, h, hr]
      split <;> simp [h]
  · cases hr : refreshToken call now with
    | none =>
      simp only [responseErrorHandler]
      split
      · simp [hr, h]
      · simp [h]
    | some nt =>
      simp only [responseErrorHandler]
      split
      · simp [hr]
      · simp [h]

/-- C10, witness for `c10_refresh_total_no_throw` at a concrete state. -/
theorem c10_witness :
    (requestInterceptor ⟨some "t", some 0, some "Bearer t"⟩ 0
        (Except.ok (refreshToken (Except.ok ⟨true, some "n", none⟩) 0))).state.authToken.isSome = true := by
  exact (c10_refresh_total_no_throw (Except.ok ⟨true, some "n", none⟩) 0
    ⟨some "t", some 0, some "Bearer t"⟩ (some 401) false "t" rfl).2.1

/--
C2, counterexample.  The claim states that on a pre-send refresh failure
the stored token is cleared and the request goes out with no
`Authorization` header.  With an expired token and the actual failure
mode of `refreshToken` (it returns `null`, here produced by running it on
a rejected call), the request interceptor leaves the store untouched and
attaches the OLD token to the request.
-/
theorem c2_counterexample :
    isTokenExpired ⟨some "old", some 1000, some "Bearer old"⟩ 1000000 = true ∧
    refreshToken (Except.error ()) 1000000 = none ∧
    (requestInterceptor ⟨some "old", some 1000, some "Bearer old"⟩ 1000000
        (Except.ok (refreshToken (Except.error ()) 1000000))).state =
      ⟨some "old", some 1000, some "Bearer old"⟩ ∧
    (requestInterceptor ⟨some "old", some 1000, some "Bearer old"⟩ 1000000
        (Except.ok (refreshToken (Except.error ()) 1000000))).header =
      some ("Bearer " ++ "old") ∧
    (requestInterceptor ⟨some "old", some 1000, some "Bearer old"⟩ 1000000
        (Except.ok (refreshToken (Except.error ()) 1000000))).refreshAttempts = 1 := by
  refine ⟨by decide, rfl, by decide, by decide, by decide⟩

/--
C2, amended.  For a stored, expired token the request interceptor makes
exactly one refresh attempt before sending; on refresh success it
replaces the stored token and expiry and attaches the new token; on the
refresh returning `null` it leaves the store unchanged and attaches the
OLD token (the clear-and-send-unauthenticated branch is the catch for a
thrown refresh error, which the implemented `refreshToken` never
produces).
-/
theorem c2_request_refresh (s : ApiState) (tok : String) (now : Int)
    (nt : TokenInfo) (h : s.authToken = some tok)
    (hexp : isTokenExpired s now = true) :
    (requestInterceptor s now (Except.ok none)).state = s ∧
    (requestInterceptor s now (Except.ok none)).header = some ("Bearer " ++ tok) ∧
    (requestInterceptor s now (Except.ok none)).refreshAttempts = 1 ∧
    (requestInterceptor s now (Except.ok (some nt))).state.authToken = some nt.token ∧
    (requestInterceptor s now (Except.ok (some nt))).state.tokenExpiry =
      some (now + jsOrInt nt.expiresIn (24 * 60 * 60) * 1000) ∧
    (requestInterceptor s now (Except.ok (some nt))).header =
      some ("Bearer " ++ nt.token) ∧
    (requestInterceptor s now (Except.ok (some nt))).refreshAttempts = 1 := by
  simp [requestInterceptor, h, hexp]

/-- C2, witness for `c2_request_refresh` at a concrete expired state. -/
theorem c2_witness :
    (requestInterceptor ⟨some "old", some 1000, some "Bearer old"⟩ 1000000
        (Except.ok (some ⟨"new", 60⟩))).header = some ("Bearer " ++ "new") := by
  exact (c2_request_refresh ⟨some "old", some 1000, some "Bearer old"⟩ "old" 1000000
    ⟨"new", 60⟩ rfl (by decide)).2.2.2.2.2.1

/--
C1, counterexample.  The claim states that on a first-time 401 whose
refresh fails, the stored token is cleared before the 401 is propagated.
With the actual failure mode of `refreshToken` (return `null`), the
response handler propagates the 401 but leaves the stored token, expiry
and default header fully in place.
-/
theorem c1_counterexample :
    refreshToken (Except.error ()) 0 = none ∧
    (responseErrorHandler ⟨some "tok", some 0, some "Bearer tok"⟩ 0 (some 401)
        false (Except.ok (refreshToken (Except.error ()) 0))).state =
      ⟨some "tok", some 0, some "Bearer tok"⟩ ∧
    (responseErrorHandler ⟨some "tok", some 0, some "Bearer tok"⟩ 0 (some 401)
        false (Except.ok (refreshToken (Except.error ()) 0))).action =
      RespAction.reject := by
  refine ⟨rfl, by decide, by decide⟩

/--
C1, amended.  On a 401 that has not been retried the response handler
makes exactly one refresh attempt: on success it re-sends the original
request once with the new token (marking it retried); on the refresh
returning `null` it propagates the original 401 with the store left
unchanged (the clearing branch is the catch for a thrown refresh error,
which the implemented `refreshToken` never produces); a request already
marked retried, or any non-401 error, is propagated with no refresh and
no retry.
-/
theorem c1_response_401_policy (s : ApiState) (now : Int) (st : Option Int)
    (retried : Bool) (nt : TokenInfo) (refresh : Except Unit (Option TokenInfo)) :
    (st = some 401 → retried = false →
      ((responseErrorHandler s now st retried (Except.ok (some nt))).action =
          RespAction.resend ("Bearer " ++ nt.token) ∧
       (responseErrorHandler s now st retried (Except.ok (some nt))).state.authToken =
          some nt.token ∧
       (responseErrorHandler s now st retried (Except.ok (some nt))).retryFlag = true ∧
       (responseErrorHandler s now st retried (Except.ok (some nt))).refreshAttempts = 1) ∧
      (responseErrorHandler s now st retried (Except.ok none) =
        { state := s, action := RespAction.reject, retryFlag := true
          refreshAttempts := 1 }) ∧
      ((responseErrorHandler s now st retried (Except.error ())).state =
          clearAuthToken s ∧
       (responseErrorHandler s now st retried (Except.error ())).action =
          RespAction.reject)) ∧
    (retried = true →
      responseErrorHandler s now st retried refresh =
        { state := s, action := RespAction.reject, retryFlag := true
          refreshAttempts := 0 }) ∧
    (st ≠ some 401 →
      responseErrorHandler s now st retried refresh =
        { state := s, action := RespAction.reject, retryFlag := retried
          refreshAttempts := 0 }) := by
  refine ⟨?_, ?_, ?_⟩
  · intro h1 h2
    subst h1; subst h2
    simp [responseErrorHandler]
  · intro h2
    subst h2
    simp [responseErrorHandler]
  · intro h1
    have hb : (st == some 401) = false := by
      simpa using h1
    simp [responseErrorHandler, hb]

/-- C1, witness for `c1_response_401_policy` at a concrete 401. -/
theorem c1_witness :
    (responseErrorHandler ⟨some "old", some 0, some "Bearer old"⟩ 0 (some 401)
        false (Except.ok (some ⟨"new", 60⟩))).action =
      RespAction.resend ("Bearer " ++ "new") := by
  exact ((c1_response_401_policy ⟨some "old", some 0, some "Bearer old"⟩ 0
    (some 401) false ⟨"new", 60⟩ (Except.ok (some ⟨"new", 60⟩))).1 rfl rfl).1.1

/--
C4.  The send flow entry point evaluates the full precondition gate
(logged in, KYC approved, default wallet, positive balance) before any
flow state is created: each failing precondition returns the whole
session unchanged together with its specific abort reply, and only when
all four pass is the `TransferFlowState` created.
-/
theorem c4_send_gate (sess : Session) (kyc : Bool)
    (dw : Option (Option String)) (bal : Option (Option Int)) :
    (sess.user = none → sendHandler sess kyc dw bal = (sess, Reply.loginRequired)) ∧
    (sess.user ≠ none → kyc = false →
      sendHandler sess kyc dw bal = (sess, Reply.kycNotApproved)) ∧
    (sess.user ≠ none → kyc = true → defaultWalletOk dw = false →
      sendHandler sess kyc dw bal = (sess, Reply.noDefaultWallet)) ∧
    (sess.user ≠ none → kyc = true → defaultWalletOk dw = true →
      balanceOk bal = false →
      sendHandler sess kyc dw bal = (sess, Reply.insufficientBalance)) ∧
    (sess.user ≠ none → kyc = true → defaultWalletOk dw = true →
      balanceOk bal = true →
      sendHandler sess kyc dw bal =
        ({ sess with transferState := some initialEmailTransferState },
         Reply.promptRecipientEmail)) := by
  refine ⟨?_, ?_, ?_, ?_, ?_⟩
  · intro h
    simp [sendHandler, h]
  · intro h hk
    obtain ⟨u, hu⟩ := Option.ne_none_iff_exists'.mp h
    subst hk
    simp [sendHandler, hu]
  · intro h hk hd
    obtain ⟨u, hu⟩ := Option.ne_none_iff_exists'.mp h
    subst hk
    simp [sendHandler, hu, hd]
  · intro h hk hd hb
    obtain ⟨u, hu⟩ := Option.ne_none_iff_exists'.mp h
    subst hk
    simp [sendHandler, hu, hd, hb]
  · intro h hk hd hb
    obtain ⟨u, hu⟩ := Option.ne_none_iff_exists'.mp h
    subst hk
    simp [sendHandler, hu, hd, hb]

/-- C4, witness for `c4_send_gate`: the KYC-not-approved scenario creates
no transfer flow state. -/
theorem c4_witness :
    sendHandler ⟨some "tok", none, none, none⟩ false none none =
      (⟨some "tok", none, none, none⟩, Reply.kycNotApproved) := by
  exact (c4_send_gate ⟨some "tok", none, none, none⟩ false none none).2.1
    (by decide) rfl

/--
C3, counterexample.  The claim states that confirming with ANY non-empty
`TransferFlowState` resets it to empty.  The state `sendHandler` itself
creates (`type: EMAIL`, no recipient, no amount) is non-empty, yet
confirming it takes the missing-fields early return: no transfer call is
made and the state is left unchanged, still non-empty.
-/
theorem c3_counterexample :
    TransferFlowState.isEmpty initialEmailTransferState = false ∧
    (handleTransferConfirm
        ⟨some "tok", none, some initialEmailTransferState, none⟩
        SendResult.ok).session =
      ⟨some "tok", none, some initialEmailTransferState, none⟩ ∧
    (handleTransferConfirm
        ⟨some "tok", none, some initialEmailTransferState, none⟩
        SendResult.ok).sendCalls = 0 := by
  refine ⟨by decide, by decide, by decide⟩

/--
C3, amended.  When the stored transfer state carries a (truthy) recipient
and amount — and, for wallet transfers, a network — confirmation resets
the flow state to the empty object whatever the send call does, and every
confirmation issues at most one transfer call; when a required field is
missing the handler returns early with an error reply, no transfer call,
and the flow state unchanged.
-/
theorem c3_confirm_reset (sess : Session) (t : TransferFlowState) (u : String)
    (send : SendResult) (hu : sess.user = some u)
    (ht : sess.transferState = some t) :
    (jsTruthyStr t.recipient = true → jsTruthyStr t.amount = true →
      (t.type = some "WALLET" → jsTruthyStr t.network = true) →
      (handleTransferConfirm sess send).session.transferState =
          some emptyTransferState ∧
      (handleTransferConfirm sess send).sendCalls ≤ 1) ∧
    ((jsTruthyStr t.recipient = false ∨ jsTruthyStr t.amount = false) →
      (handleTransferConfirm sess send).session = sess ∧
      (handleTransferConfirm sess send).sendCalls = 0) ∧
    (t.type = some "WALLET" → jsTruthyStr t.network = false →
      jsTruthyStr t.recipient = true → jsTruthyStr t.amount = true →
      (handleTransferConfirm sess send).session = sess ∧
      (handleTransferConfirm sess send).sendCalls = 0) ∧
    (handleTransferConfirm sess send).sendCalls ≤ 1 := by
  refine ⟨?_, ?_, ?_, ?_⟩
  · intro hr ha hw
    by_cases he : t.type = some "EMAIL"
    · cases send <;> simp [handleTransferConfirm, hu, ht, hr, ha, he]
    · by_cases hwt : t.type = some "WALLET"
      · have hn := hw hwt
        cases send <;>
          simp [handleTransferConfirm, hu, ht, hr, ha, he, hwt, hn]
      · cases send <;> simp [handleTransferConfirm, hu, ht, hr, ha, he, hwt]
  · intro hmiss
    rcases hmiss with hr | ha
    · simp [handleTransferConfirm, hu, ht, hr]
    · by_cases hr : jsTruthyStr t.recipient = true
      · simp [handleTransferConfirm, hu, ht, hr, ha]
      · simp [handleTransferConfirm, hu, ht,
          Bool.eq_false_iff.mpr hr]
  · intro hwt hn hr ha
    have he : ¬ t.type = some "EMAIL" := by
      rw [hwt]; decide
    simp [handleTransferConfirm, hu, ht, hr, ha, he, hwt, hn]
  · cases hsu : sess.user with
    | none => simp [handleTransferConfirm, hsu]
    | some v =>
      cases hst : sess.transferState with
      | none => simp [handleTransferConfirm, hsu, hst]
      | some t2 =>
        by_cases hr : jsTruthyStr t2.recipient = true
        · by_cases ha : jsTruthyStr t2.amount = true
          · by_cases he : t2.type = some "EMAIL"
            · cases send <;>
                simp [handleTransferConfirm, hsu, hst, hr, ha, he]
            · by_cases hwt : t2.type = some "WALLET"
              · by_cases hn : jsTruthyStr t2.network = true
                · cases send <;>
                    simp [handleTransferConfirm, hsu, hst, hr, ha, he, hwt, hn]
                · simp [handleTransferConfirm, hsu, hst, hr, ha, he, hwt,
                    Bool.eq_false_iff.mpr hn]
              · cases send <;>
                  simp [handleTransferConfirm, hsu, hst, hr, ha, he, hwt]
          · simp [handleTransferConfirm, hsu, hst, hr,
              Bool.eq_false_iff.mpr ha]
        · simp [handleTransferConfirm, hsu, hst,
            Bool.eq_false_iff.mpr hr]

/-- C3, witness for `c3_confirm_reset` at a fully populated email
transfer state. -/
theorem c3_witness :
    (handleTransferConfirm
        ⟨some "tok", none, some ⟨some "EMAIL", some "a@b.c", some "5", none⟩, none⟩
        SendResult.ok).session.transferState = some emptyTransferState := by
  exact ((c3_confirm_reset
    ⟨some "tok", none, some ⟨some "EMAIL", some "a@b.c", some "5", none⟩, none⟩
    ⟨some "EMAIL", some "a@b.c", some "5", none⟩ "tok" SendResult.ok rfl rfl).1
    (by decide) (by decide) (by decide)).1

/--
C6, counterexample.  The claim states that `history:next` never requests
a page past the reported `totalPages`.  With the session on page 1 and a
server report of `totalPages = 1` (so the `Next` button would not even be
rendered), the handler still increments unconditionally and re-fetches
page 2, one past the last existing page.
-/
theorem c6_counterexample :
    nextButtonShown 1 (some 1) = false ∧
    (handleHistoryPagination ⟨some "tok", none, none, some ⟨1, 5⟩⟩
        "next").historyState = some ⟨2, 5⟩ ∧
    ¬ (2 : Nat) ≤ 1 := by
  refine ⟨by decide, by decide, by decide⟩

/--
C6, amended.  `history:prev` on page 1 stays on page 1 and `prev` never
goes below page 1, `history:refresh` keeps the page, and `history:next`
always increments; the clamping against `totalPages` lives in the
rendering, which offers the `Next` button only when `page < totalPages`,
so a `next` tapped on a freshly rendered keyboard requests a page that is
at most `totalPages`.  The handler itself does not consult `totalPages`.
-/
theorem c6_pagination (sess : Session) (u : String) (page limit tp : Nat)
    (hu : sess.user = some u) :
    (handleHistoryPagination { sess with historyState := some ⟨1, limit⟩ }
        "prev").historyState = some ⟨1, limit⟩ ∧
    (handleHistoryPagination { sess with historyState := some ⟨page, limit⟩ }
        "refresh").historyState = some ⟨page, limit⟩ ∧
    (page ≥ 1 → pageUpdate page "prev" ≥ 1) ∧
    (nextButtonShown page (some tp) = true → pageUpdate page "next" ≤ tp) ∧
    pageUpdate page "next" = page + 1 := by
  refine ⟨?_, ?_, ?_, ?_, ?_⟩
  · simp [handleHistoryPagination, hu, pageUpdate]
  · simp [handleHistoryPagination, hu, pageUpdate]
  · intro h
    simp only [pageUpdate]
    split
    · next hc =>
      simp only [Bool.and_eq_true, decide_eq_true_eq] at hc
      omega
    · split <;> omega
  · intro h
    simp only [nextButtonShown, decide_eq_true_eq] at h
    simp [pageUpdate]
    omega
  · simp [pageUpdate]

/-- C6, witness for `c6_pagination`: prev on page 1 is a no-op. -/
theorem c6_witness :
    (handleHistoryPagination ⟨some "t", none, none, some ⟨1, 5⟩⟩
        "prev").historyState = some ⟨1, 5⟩ := by
  exact (c6_pagination ⟨some "t", none, none, some ⟨1, 5⟩⟩ "t" 3 5 7 rfl).1

/--
C7.  Arming the notification bridge is idempotent per
`(chatId, organizationId)` key: a second `initializeUserPusher` for the
same key is a no-op that opens no new provider subscription, after the
two calls exactly one subscription is active for the key, and
`cleanupUserPusher` removes it.
-/
theorem c7_arm_idempotent (b : BridgeState) (chatId : Int) (orgId : String) :
    (initializeUserPusher (initializeUserPusher b chatId orgId).1 chatId orgId).1 =
      (initializeUserPusher b chatId orgId).1 ∧
    (initializeUserPusher (initializeUserPusher b chatId orgId).1 chatId orgId).2 = 0 ∧
    subCount (initializeUserPusher (initializeUserPusher b chatId orgId).1
        chatId orgId).1 chatId orgId = 1 ∧
    subCount (cleanupUserPusher (initializeUserPusher b chatId orgId).1
        chatId orgId) chatId orgId = 0 := by
  by_cases h : b.active (instanceKey chatId orgId) = true
  · simp [initializeUserPusher, subCount, cleanupUserPusher, h]
  · simp [initializeUserPusher, subCount, cleanupUserPusher,
      Bool.eq_false_iff.mpr h]

/--
C9.  For a free-text message the router dispatches to the login email
handler (reply to the email prompt, `awaitingOTP` strictly false): an
input failing the email-format check leaves the auth flow state exactly
as it was and re-prompts, while a valid input whose OTP request returns
moves the flow to `awaitingOTP = true` with the email and the returned
`sid` stored in the session auth state.
-/
theorem c9_login_email_step (sess : Session) (replyText email : String)
    (sid : Option String)
    (hr : routesToLoginEmail sess replyText = true) :
    (∃ a, sess.authState = some a ∧ a.awaitingOTP = false) ∧
    (emailRegexTest email = false → ∀ otp,
      handleEmailInput sess email otp = (sess, Reply.invalidEmailFormat)) ∧
    (emailRegexTest email = true →
      (handleEmailInput sess email (OtpRequestOutcome.ok sid)).1.authState =
        some ⟨some email, true, sid⟩ ∧
      (handleEmailInput sess email (OtpRequestOutcome.ok sid)).2 = Reply.otpSent ∧
      (handleEmailInput sess email (OtpRequestOutcome.ok sid)).1.user = sess.user ∧
      (handleEmailInput sess email (OtpRequestOutcome.ok sid)).1.transferState =
        sess.transferState) := by
  obtain ⟨su, sa, stf, sh⟩ := sess
  simp only [routesToLoginEmail, Bool.and_eq_true] at hr
  obtain ⟨⟨-, hmatch⟩, -⟩ := hr
  cases sa with
  | none => simp at hmatch
  | some a =>
    simp only [beq_iff_eq] at hmatch
    refine ⟨⟨a, rfl, hmatch⟩, ?_, ?_⟩
    · intro hbad otp
      simp [handleEmailInput, hbad]
    · intro hgood
      simp [handleEmailInput, hgood]

/-- C9, witness for `c9_login_email_step`: a valid email moves the flow
to awaiting-OTP with the returned sid stored. -/
theorem c9_witness :
    (handleEmailInput ⟨none, some ⟨none, false, none⟩, none, none⟩
        "user@example.com" (OtpRequestOutcome.ok (some "s1"))).1.authState =
      some ⟨some "user@example.com", true, some "s1"⟩ := by
  exact ((c9_login_email_step ⟨none, some ⟨none, false, none⟩, none, none⟩
    "Please enter your email address to login to your Copperx account:"
    "user@example.com" (some "s1") (by decide)).2.2 (by decide)).1

/--
C5, counterexample.  The claim states that any error type other than the
404 fallbacks also makes the check return eligible.  A 500 from the
primary eligibility endpoint is re-thrown into the outer catch, which
returns NOT eligible with a "Failed to verify recipient" reason —
blocking the transfer rather than allowing it.
-/
theorem c5_counterexample :
    (checkRecipientEligibility
        (ApiResult.failure ⟨some ⟨500, none⟩, some "Internal Server Error"⟩)
        (ApiResult.success ⟨true, "APPROVED"⟩)).isEligible = false ∧
    (checkRecipientEligibility
        (ApiResult.failure ⟨some ⟨500, none⟩, some "Internal Server Error"⟩)
        (ApiResult.success ⟨true, "APPROVED"⟩)).reason =
      some ("Failed to verify recipient: " ++ "Internal Server Error") := by
  refine ⟨by decide, by decide⟩

/--
C5, amended.  The three-tier fallback holds as described — primary
endpoint result used when it answers; on its 404 the user-lookup decides
eligibility as wallets-present AND KYC-approved; on the lookup endpoint
being absent too (404 with a "Cannot GET" message) or failing with any
status other than 404/400 (or with no response at all), the check
defaults to eligible — but a primary-endpoint failure other than a 404
response lands in the outer catch and returns NOT eligible with a
"Failed to verify recipient" reason.
-/
theorem c5_eligibility_fallback (r : EligResult) (u : RecipientInfo)
    (lookup : ApiResult RecipientInfo) (e ue : ApiFailure)
    (resp uresp : ErrResp) :
    (checkRecipientEligibility (ApiResult.success r) lookup = r) ∧
    (e.response = some resp → resp.status = 404 →
      ((checkRecipientEligibility (ApiResult.failure e)
          (ApiResult.success u)).isEligible = true ↔
        u.hasWallets = true ∧ u.kycStatus = "APPROVED")) ∧
    (e.response = some resp → resp.status = 404 →
      ue.response = some uresp → uresp.status = 404 →
      ∀ m, uresp.message = some m → jsIncludes m "Cannot GET" = true →
      checkRecipientEligibility (ApiResult.failure e) (ApiResult.failure ue) =
        ⟨true, none⟩) ∧
    (e.response = some resp → resp.status = 404 → ue.response = none →
      checkRecipientEligibility (ApiResult.failure e) (ApiResult.failure ue) =
        ⟨true, none⟩) ∧
    (e.response = some resp → resp.status = 404 →
      ue.response = some uresp → uresp.status ≠ 404 → uresp.status ≠ 400 →
      checkRecipientEligibility (ApiResult.failure e) (ApiResult.failure ue) =
        ⟨true, none⟩) ∧
    (e.response = some resp → resp.status ≠ 404 →
      (checkRecipientEligibility (ApiResult.failure e) lookup).isEligible =
        false ∧
      (checkRecipientEligibility (ApiResult.failure e) lookup).reason =
        some ("Failed to verify recipient: " ++ errText e)) ∧
    (e.response = none →
      (checkRecipientEligibility (ApiResult.failure e) lookup).isEligible =
        false) := by
  refine ⟨rfl, ?_, ?_, ?_, ?_, ?_, ?_⟩
  · intro h1 h2
    cases hw : u.hasWallets <;>
      by_cases hk : u.kycStatus = "APPROVED" <;>
        simp [checkRecipientEligibility, h1, h2, hw, hk]
  · intro h1 h2 h3 h4 m h5 h6
    simp [checkRecipientEligibility, h1, h2, h3, h4, h5, h6]
  · intro h1 h2 h3
    simp [checkRecipientEligibility, h1, h2, h3]
  · intro h1 h2 h3 h4 h5
    simp [checkRecipientEligibility, h1, h2, h3, bne_iff_ne, h4, h5]
  · intro h1 h2
    have hb : (resp.status != 404) = true := by
      simpa [bne_iff_ne] using h2
    cases lookup <;> simp [checkRecipientEligibility, h1, hb]
  · intro h1
    cases lookup <;> simp [checkRecipientEligibility, h1]

/-- C5, witness for `c5_eligibility_fallback`: primary 404, lookup finds
a KYC-approved user with wallets, so the recipient is eligible. -/
theorem c5_witness :
    (checkRecipientEligibility (ApiResult.failure ⟨some ⟨404, none⟩, none⟩)
        (ApiResult.success ⟨true, "APPROVED"⟩)).isEligible = true := by
  exact ((c5_eligibility_fallback ⟨true, none⟩ ⟨true, "APPROVED"⟩
    (ApiResult.success ⟨true, "APPROVED"⟩) ⟨some ⟨404, none⟩, none⟩
    ⟨none, none⟩ ⟨404, none⟩ ⟨0, none⟩).2.1 rfl rfl).mpr ⟨rfl, rfl⟩
